import Mathlib

/-!
Verification of the augment-agent-memory hook scripts.

A shallow embedding, in Lean, of the core of the `augment-agent-memory`
repository: the workspace identity derivation functions
(`src/augment_agent_memory/workspace.py`), configuration parsing of the
summary group-by list (`src/augment_agent_memory/config.py`), the message
and tool-usage formatting functions, and the three hook orchestrators
(`hooks/session_start.py`, `hooks/stop.py`, `hooks/post_tool_use.py`).

Modelling conventions:
* Python `str` is Lean `String` (a list of Unicode scalar values, matching
  Python's code-point view of text for the characters exercised here).
* Python byte strings are `List Nat` with each element `< 256`.
* Machine words in SHA-256 are `Nat` reduced with explicit `% 2 ^ 32`.
* Python `None` / optional dict fields are `Option`.
* Remote calls of the external memory client are modelled by explicit
  behaviour records: each call site's outcome is an `Except Unit α` value,
  `.error ()` standing for the call raising an exception.  `try/except`
  blocks of the source become `match`es on those `Except` values placed
  exactly where the source catches.
* The hooks' standard output is collected as a `List String`, one element
  per `print` the source executes.
-/

namespace AugmentMemory

/-! ## Python character and string primitives -/

/-- Python `str.isalnum` on a single character.  Exact for every code point
below U+0100 (ASCII alphanumerics, plus the Latin-1 alphanumerics:
ª ² ³ µ ¹ º ¼ ½ ¾ and the accented letters U+00C0–U+00FF except × and ÷).
Python's `isalnum` additionally accepts many code points at or above U+0100
(Unicode letter and number categories) which this model maps to `false`;
every theorem below only exercises it below U+0100. -/
def pyIsAlnum (c : Char) : Bool :=
  if c.toNat < 0x80 then c.isAlphanum
  else if c.toNat < 0x100 then
    [0xAA, 0xB2, 0xB3, 0xB5, 0xB9, 0xBA, 0xBC, 0xBD, 0xBE].contains c.toNat
      || (0xC0 ≤ c.toNat && c.toNat ≠ 0xD7 && c.toNat ≠ 0xF7)
  else false

/-- Characters Python `str.strip()` removes.  Exact below U+0100 (ASCII
whitespace, the C1 separators, NEL and NBSP); Python also strips the Unicode
space-category characters at or above U+0100, which no theorem below uses. -/
def pyIsSpace (c : Char) : Bool :=
  [9, 10, 11, 12, 13, 28, 29, 30, 31, 32, 0x85, 0xA0].contains c.toNat

/-- Python `str.strip()`: drop leading and trailing whitespace. -/
def pyStrip (s : String) : String :=
  String.mk (((s.data.dropWhile pyIsSpace).reverse.dropWhile pyIsSpace).reverse)

/-- Python truthiness of an optional string: `None` and `""` are falsy. -/
def pyTruthy : Option String → Bool
  | none => false
  | some s => s ≠ ""

/-- Python slicing `s[:n]` on a string. -/
def strTake (s : String) (n : Nat) : String :=
  String.mk (s.data.take n)

/-- Split a character list at every occurrence of `sep` (no collapsing:
`"a,,b"` gives three pieces, `""` gives one empty piece), the semantics of
Python `str.split(sep)` with a one-character separator. -/
def splitOnChar (sep : Char) : List Char → List (List Char)
  | [] => [[]]
  | c :: rest =>
    match splitOnChar sep rest with
    | [] => [[c]]
    | h :: t => if c = sep then [] :: h :: t else (c :: h) :: t

/-- Python `s.split(sep)` for a one-character separator, on strings. -/
def pySplit (s : String) (sep : Char) : List String :=
  (splitOnChar sep s.data).map String.mk

/-- Python `sep.join(parts)`. -/
def pyJoin (sep : String) : List String → String
  | [] => ""
  | [x] => x
  | x :: y :: rest => x ++ sep ++ pyJoin sep (y :: rest)

/-! ## UTF-8 encoding

Python's `str.encode()` with the default UTF-8 codec. -/

/-- The UTF-8 bytes of one Unicode scalar value. -/
def utf8Bytes (c : Char) : List Nat :=
  let n := c.toNat
  if n < 0x80 then [n]
  else if n < 0x800 then
    [0xC0 + (n >>> 6), 0x80 + (n % 64)]
  else if n < 0x10000 then
    [0xE0 + (n >>> 12), 0x80 + ((n >>> 6) % 64), 0x80 + (n % 64)]
  else
    [0xF0 + (n >>> 18), 0x80 + ((n >>> 12) % 64), 0x80 + ((n >>> 6) % 64), 0x80 + (n % 64)]

/-- Python `s.encode()`: the UTF-8 bytes of a string. -/
def utf8Encode (s : String) : List Nat :=
  s.data.flatMap utf8Bytes

/-! ## SHA-256 (FIPS 180-4), over `List Nat` bytes with `Nat` words mod 2³²

`hashlib.sha256`, as used by `workspace.py` for workspace ids and session
hashes.  Words are `Nat` kept below `2 ^ 32` by explicit reduction. -/

/-- Right rotation of a 32-bit word held in a `Nat`. -/
def rotr32 (x n : Nat) : Nat :=
  ((x >>> n) ||| (x <<< (32 - n))) % 4294967296

/-- SHA `Ch(x,y,z)`; bitwise not is xor against the 32-bit mask. -/
def shaCh (x y z : Nat) : Nat := (x &&& y) ^^^ ((x ^^^ 4294967295) &&& z)

/-- SHA `Maj(x,y,z)`. -/
def shaMaj (x y z : Nat) : Nat := (x &&& y) ^^^ (x &&& z) ^^^ (y &&& z)

/-- SHA `Σ₀`. -/
def bsig0 (x : Nat) : Nat := rotr32 x 2 ^^^ rotr32 x 13 ^^^ rotr32 x 22

/-- SHA `Σ₁`. -/
def bsig1 (x : Nat) : Nat := rotr32 x 6 ^^^ rotr32 x 11 ^^^ rotr32 x 25

/-- SHA `σ₀`. -/
def ssig0 (x : Nat) : Nat := rotr32 x 7 ^^^ rotr32 x 18 ^^^ (x >>> 3)

/-- SHA `σ₁`. -/
def ssig1 (x : Nat) : Nat := rotr32 x 17 ^^^ rotr32 x 19 ^^^ (x >>> 10)

/-- The 64 SHA-256 round constants (FIPS 180-4 section 4.2.2), four per
row. -/
def shaK : List Nat :=
    [0x428a2f98, 0x71374491, 0xb5c0fbcf, 0xe9b5dba5] ++
    [0x3956c25b, 0x59f111f1, 0x923f82a4, 0xab1c5ed5] ++
    [0xd807aa98, 0x12835b01, 0x243185be, 0x550c7dc3] ++
    [0x72be5d74, 0x80deb1fe, 0x9bdc06a7, 0xc19bf174] ++
    [0xe49b69c1, 0xefbe4786, 0x0fc19dc6, 0x240ca1cc] ++
    [0x2de92c6f, 0x4a7484aa, 0x5cb0a9dc, 0x76f988da] ++
    [0x983e5152, 0xa831c66d, 0xb00327c8, 0xbf597fc7] ++
    [0xc6e00bf3, 0xd5a79147, 0x06ca6351, 0x14292967] ++
    [0x27b70a85, 0x2e1b2138, 0x4d2c6dfc, 0x53380d13] ++
    [0x650a7354, 0x766a0abb, 0x81c2c92e, 0x92722c85] ++
    [0xa2bfe8a1, 0xa81a664b, 0xc24b8b70, 0xc76c51a3] ++
    [0xd192e819, 0xd6990624, 0xf40e3585, 0x106aa070] ++
    [0x19a4c116, 0x1e376c08, 0x2748774c, 0x34b0bcb5] ++
    [0x391c0cb3, 0x4ed8aa4a, 0x5b9cca4f, 0x682e6ff3] ++
    [0x748f82ee, 0x78a5636f, 0x84c87814, 0x8cc70208] ++
    [0x90befffa, 0xa4506ceb, 0xbef9a3f7, 0xc67178f2]

/-- The eight-word SHA-256 working state. -/
structure Sha256State where
  a : Nat
  b : Nat
  c : Nat
  d : Nat
  e : Nat
  f : Nat
  g : Nat
  h : Nat

/-- The SHA-256 initial hash value. -/
def sha256IV : Sha256State :=
  ⟨0x6a09e667, 0xbb67ae85, 0x3c6ef372, 0xa54ff53a, 0x510e527f, 0x9b05688c, 0x1f83d9ab, 0x5be0cd19⟩

/-- Big-endian bytes, `k` of them, of `n`. -/
def beBytes (k n : Nat) : List Nat :=
  (List.range k).map (fun i => (n >>> (8 * (k - 1 - i))) % 256)

/-- FIPS 180-4 §5.1.1 padding: append `0x80`, zeros, then the 64-bit
big-endian bit length, to a multiple of 64 bytes. -/
def sha256Pad (msg : List Nat) : List Nat :=
  let L := msg.length
  let zeros := (120 - ((L + 1) % 64)) % 64
  msg ++ [0x80] ++ List.replicate zeros 0 ++ beBytes 8 ((8 * L) % 18446744073709551616)

/-- Parse a 64-byte block into its 16 big-endian 32-bit words. -/
def blockWords : List Nat → List Nat
  | b0 :: b1 :: b2 :: b3 :: rest =>
    ((b0 <<< 24) + (b1 <<< 16) + (b2 <<< 8) + b3) :: blockWords rest
  | _ => []

/-- Extend the 16-word schedule by `fuel` more words (§6.2.2 step 1). -/
def extendSchedule : Nat → List Nat → List Nat
  | 0, w => w
  | fuel + 1, w =>
    let i := w.length
    let nw := (w.getD (i - 16) 0 + ssig0 (w.getD (i - 15) 0)
                + w.getD (i - 7) 0 + ssig1 (w.getD (i - 2) 0)) % 4294967296
    extendSchedule fuel (w ++ [nw])

/-- One SHA-256 round (§6.2.2 step 3), consuming a `(Kₜ, Wₜ)` pair. -/
def shaRound (st : Sha256State) (kw : Nat × Nat) : Sha256State :=
  let t1 := (st.h + bsig1 st.e + shaCh st.e st.f st.g + kw.1 + kw.2) % 4294967296
  let t2 := (bsig0 st.a + shaMaj st.a st.b st.c) % 4294967296
  ⟨(t1 + t2) % 4294967296, st.a, st.b, st.c, (st.d + t1) % 4294967296, st.e, st.f, st.g⟩

/-- Compress one 64-byte block into the state (§6.2.2). -/
def sha256Compress (st : Sha256State) (block : List Nat) : Sha256State :=
  let w := extendSchedule 48 (blockWords block)
  let r := (shaK.zip w).foldl shaRound st
  ⟨(st.a + r.a) % 4294967296, (st.b + r.b) % 4294967296,
   (st.c + r.c) % 4294967296, (st.d + r.d) % 4294967296,
   (st.e + r.e) % 4294967296, (st.f + r.f) % 4294967296,
   (st.g + r.g) % 4294967296, (st.h + r.h) % 4294967296⟩

/-- Fold the compression over `fuel` successive 64-byte blocks. -/
def sha256Fold : Nat → Sha256State → List Nat → Sha256State
  | 0, st, _ => st
  | fuel + 1, st, l => sha256Fold fuel (sha256Compress st (l.take 64)) (l.drop 64)

/-- The four big-endian bytes of a 32-bit word. -/
def wordBE (x : Nat) : List Nat :=
  [(x >>> 24) % 256, (x >>> 16) % 256, (x >>> 8) % 256, x % 256]

/-- The 32 digest bytes of a final state. -/
def stateBytes (st : Sha256State) : List Nat :=
  wordBE st.a ++ wordBE st.b ++ wordBE st.c ++ wordBE st.d
    ++ wordBE st.e ++ wordBE st.f ++ wordBE st.g ++ wordBE st.h

/-- Python `hashlib.sha256(msg).digest()`: the 32-byte SHA-256 digest. -/
def sha256Digest (msg : List Nat) : List Nat :=
  let p := sha256Pad msg
  stateBytes (sha256Fold (p.length / 64) sha256IV p)

/-- The sixteen lowercase hex digit characters, in value order. -/
def hexDigits : List Char :=
  "0123456789abcdef".data

/-- The lowercase hex digit of a value (`'0'` out of range, never reached on
digest bytes). -/
def hexDigit (n : Nat) : Char := hexDigits.getD n '0'

/-- The character list of `bytes.hex()`: two lowercase hex digits per byte. -/
def bytesToHexChars (bs : List Nat) : List Char :=
  bs.flatMap (fun b => [hexDigit (b / 16), hexDigit (b % 16)])

/-- Python `bytes.hex()` as a string. -/
def bytesToHex (bs : List Nat) : String :=
  String.mk (bytesToHexChars bs)

/-- Python `hashlib.sha256(s.encode()).hexdigest()`. -/
def sha256HexOfString (s : String) : String :=
  bytesToHex (sha256Digest (utf8Encode s))

/-- Membership in the character class `[0-9a-f]`. -/
def isLowerHexDigit (c : Char) : Bool :=
  c.isDigit || ('a' ≤ c && c ≤ 'f')

/-- Membership in the character class `[A-Za-z0-9_-]` of the spec's
sanitization invariant (`Char.isAlphanum` is the ASCII check). -/
def asciiNameClass (c : Char) : Bool :=
  c.isAlphanum || c = '-' || c = '_'

/-! ## Workspace identity derivation (`src/augment_agent_memory/workspace.py`)

`os.path.abspath` consults the process working directory for relative
paths, so the embedding threads an explicit `cwd` argument everywhere the
source implicitly uses it; for a fixed process all derivations are pure
functions of `(cwd, arguments)`, matching the spec's purity statement. -/

/-- Python `posixpath.normpath`: collapse separators, drop `.` components, resolve
`..` lexically, preserving a leading `//` exactly (CPython's POSIX rules). -/
def pyNormpath (path : String) : String :=
  if path = "" then "."
  else
    let initialSlashes : Nat :=
      if path.startsWith "/" then
        if path.startsWith "//" ∧ ¬ path.startsWith "///" then 2 else 1
      else 0
    let comps := pySplit path '/'
    let newComps := comps.foldl (fun acc comp =>
      if comp = "" ∨ comp = "." then acc
      else if comp ≠ ".." ∨ (initialSlashes = 0 ∧ acc = []) ∨ acc.getLast? = some ".." then
        acc ++ [comp]
      else if acc ≠ [] then acc.dropLast
      else acc) []
    let joined := String.mk (List.replicate initialSlashes '/') ++ pyJoin "/" newComps
    if joined = "" then "." else joined

/-- Python `posixpath.join(a, b)` for the two-argument case `abspath` uses. -/
def pyPathJoin (a b : String) : String :=
  if b.startsWith "/" then b
  else if a = "" ∨ a.endsWith "/" then a ++ b
  else a ++ "/" ++ b

/-- Python `posixpath.abspath`: prefix the working directory when the path is
relative, then normalize. -/
def pyAbspath (cwd p : String) : String :=
  if p.startsWith "/" then pyNormpath p else pyNormpath (pyPathJoin cwd p)

/-- Python `pathlib.PurePosixPath(p).name`: the last path component, ignoring
trailing separators, with empty and `.` components dropped. -/
def pyPathName (p : String) : String :=
  ((pySplit p '/').filter (fun c => c ≠ "" && c ≠ ".")).getLastD ""

/-- Function `get_workspace_root`: the first hook-supplied root if any, else the
process working directory.  (`workspace.py` lines 8–20.) -/
def get_workspace_root (workspace_roots : List String) (cwd : String) : String :=
  match workspace_roots with
  | [] => cwd
  | r :: _ => r

/-- Function `get_workspace_id` (`workspace.py` lines 23–38): normalize the path,
SHA-256 its UTF-8 bytes, and render the first 4 digest bytes as hex. -/
def get_workspace_id (cwd workspace_root : String) : String :=
  let normalized := pyNormpath (pyAbspath cwd workspace_root)
  let hashBytes := sha256Digest (utf8Encode normalized)
  bytesToHex (hashBytes.take 4)

/-- Function `get_workspace_name` (`workspace.py` lines 41–50): `Path(root).name`. -/
def get_workspace_name (workspace_root : String) : String :=
  pyPathName workspace_root

/-- The per-character replacement step of the sanitization expression
`"".join(c if c.isalnum() or c in "-_" else "_" for c in name)` that
`workspace.py` inlines at lines 67, 107 and 124. -/
def sanitizeChar (c : Char) : Char :=
  if pyIsAlnum c || c = '-' || c = '_' then c else '_'

/-- The sanitization used in namespace and view-name derivation. -/
def sanitize (name : String) : String :=
  String.mk (name.data.map sanitizeChar)

/-- Function `get_workspace_namespace` (`workspace.py` lines 53–68). -/
def get_workspace_namespace (base_namespace workspace_root : String) : String :=
  base_namespace ++ ":" ++ sanitize (get_workspace_name workspace_root)

/-- Function `get_persistent_session_id` (`workspace.py` lines 71–92). -/
def get_persistent_session_id (cwd workspace_root : String)
    (conversation_id : Option String) : String :=
  let workspace_id := get_workspace_id cwd workspace_root
  let workspace_name := get_workspace_name workspace_root
  if pyTruthy conversation_id then
    "augment:" ++ workspace_name ++ ":" ++ conversation_id.getD ""
  else
    "augment:" ++ workspace_name ++ ":" ++ workspace_id

/-- Function `get_workspace_summary_view_name` (`workspace.py` lines 95–108). -/
def get_workspace_summary_view_name (workspace_root : String) : String :=
  "augment_workspace_" ++ sanitize (get_workspace_name workspace_root)

/-- Function `get_session_summary_view_name` (`workspace.py` lines 111–127):
sanitized workspace name plus the first 8 hex characters of the SHA-256 of
the session id. -/
def get_session_summary_view_name (workspace_root session_id : String) : String :=
  let safe_name := sanitize (get_workspace_name workspace_root)
  let session_hash := strTake (sha256HexOfString session_id) 8
  "augment_session_" ++ safe_name ++ "_" ++ session_hash

/-! ## Configuration: the summary group-by list (`config.py` lines 99–104) -/

/-- The allow-list `valid_fields` of `load_config`. -/
def validSummaryGroupByFields : List String := ["user_id", "namespace", "session_id"]

/-- The comprehension
`[f for f in group_by_str.split(",") if f.strip() in valid_fields]`:
note that the membership test strips `f` but the kept element is the
unstripped `f`. -/
def parseSummaryGroupBy (group_by_str : String) : List String :=
  (pySplit group_by_str ',').filter (fun f => validSummaryGroupByFields.contains (pyStrip f))

/-- Field `summary_group_by` of `load_config`, as a function of the
`AGENT_MEMORY_SUMMARY_GROUP_BY` environment variable (default `"user_id"`). -/
def loadSummaryGroupBy (env : Option String) : List String :=
  parseSummaryGroupBy (env.getD "user_id")

/-! ## Messages and conversation extraction (`hooks/stop.py` lines 58–104)

`MemoryMessage` carries a fresh UUID and timestamp in the source; both are
opaque to every property stated here, so the embedding keeps the role and
content fields the claims talk about. -/

/-- A working-memory message (role and text content). -/
structure MemoryMessage where
  role : String
  content : String
deriving DecidableEq, Repr

/-- One code-change object: a dict with optional `path` and `changeType`
keys (defaults `"unknown"` / `"edit"` applied at the use sites). -/
structure CodeChange where
  path : Option String := none
  changeType : Option String := none
deriving DecidableEq, Repr

/-- The value of the `agentCodeResponse` field: a string, or a list of
change objects.  The source's `isinstance(change, dict)` guard only skips
non-dict list entries, which this typed field cannot contain. -/
inductive AgentCodeResponse where
  | str (s : String)
  | list (changes : List CodeChange)
deriving DecidableEq, Repr

/-- The Augment conversation object, as consumed by the stop hook: three
optional fields, `none` for an absent key. -/
structure Conversation where
  userPrompt : Option String := none
  agentTextResponse : Option String := none
  agentCodeResponse : Option AgentCodeResponse := none
deriving DecidableEq, Repr

/-- Python truthiness of the `agentCodeResponse` value: an absent field, an
empty string and an empty list are falsy. -/
def codeTruthy : Option AgentCodeResponse → Bool
  | none => false
  | some (.str s) => s ≠ ""
  | some (.list l) => l ≠ []

/-- The `f"[{change_type}: {path}]"` rendering of one code change
(`stop.py` lines 87–90). -/
def formatCodeChange (change : CodeChange) : String :=
  "[" ++ change.changeType.getD "edit" ++ ": " ++ change.path.getD "unknown" ++ "]"

/-- Function `extract_messages_from_conversation` (`stop.py` lines 58–104): an
optional user message from `userPrompt`, then an optional assistant message
combining `agentTextResponse` and `agentCodeResponse` with `"\n\n"`. -/
def extract_messages_from_conversation (conversation : Conversation) : List MemoryMessage :=
  let messages : List MemoryMessage :=
    if pyTruthy conversation.userPrompt then
      [⟨"user", conversation.userPrompt.getD ""⟩]
    else []
  let response_parts : List String :=
    (if pyTruthy conversation.agentTextResponse then
       [conversation.agentTextResponse.getD ""]
     else []) ++
    (if codeTruthy conversation.agentCodeResponse then
       match conversation.agentCodeResponse with
       | some (.list changes) => changes.map formatCodeChange
       | some (.str s) => [s]
       | none => []
     else [])
  messages ++
    (if response_parts ≠ [] then
       [⟨"assistant", pyJoin "\n\n" response_parts⟩]
     else [])

/-! ## Tool-usage formatting (`hooks/post_tool_use.py` lines 20–64) -/

/-- The `tool_input` dict, with the keys the formatter reads. -/
structure ToolInput where
  command : Option String := none
  path : Option String := none
  method : Option String := none
deriving DecidableEq, Repr

/-- The fields of the hook input that `format_tool_usage` consumes. -/
structure ToolUsage where
  tool_name : Option String := none
  tool_input : ToolInput := {}
  tool_error : Option String := none
  file_changes : List CodeChange := []
deriving DecidableEq, Repr

/-- The `skip_tools` denylist. -/
def skipTools : List String := ["view", "codebase-retrieval", "web-search", "web-fetch"]

/-- Function `format_tool_usage` (`post_tool_use.py` lines 20–64): `none` for
denylisted tools, otherwise the `" | "`-joined summary with the command
truncated to 200 characters and the error to 100.  The source's
`isinstance(change, dict)` filter on `file_changes` is vacuous here since
the entries are typed change objects. -/
def format_tool_usage (inp : ToolUsage) : Option String :=
  let tool_name := inp.tool_name.getD "unknown"
  let tool_error := inp.tool_error.getD ""
  if skipTools.contains tool_name then none
  else
    let parts : List String := ["Used tool: " ++ tool_name]
    let parts := parts ++
      (if tool_name = "launch-process" then
         let command := inp.tool_input.command.getD ""
         if command ≠ "" then ["Command: " ++ strTake command 200] else []
       else if tool_name = "str-replace-editor" ∨ tool_name = "save-file" then
         let path := inp.tool_input.path.getD ""
         if path ≠ "" then ["File: " ++ path] else []
       else if tool_name = "github-api" then
         let path := inp.tool_input.path.getD ""
         let method := inp.tool_input.method.getD "GET"
         if path ≠ "" then ["GitHub: " ++ method ++ " " ++ path] else []
       else [])
    let parts := parts ++
      (if inp.file_changes ≠ [] then
         let changes := (inp.file_changes.take 5).map
           (fun change => change.changeType.getD "edit" ++ ": " ++ change.path.getD "unknown")
         if changes ≠ [] then ["Changes: " ++ pyJoin ", " changes] else []
       else [])
    let parts := parts ++
      (if tool_error ≠ "" then ["Error: " ++ strTake tool_error 100] else [])
    some (pyJoin " | " parts)

/-! ## Hook orchestration

The hook entry points read an environment-derived configuration, a JSON
object from standard input, call the external memory client, and print a
result.  The embedding makes explicit:

* the configuration fields each hook consumes (`MemoryConfig`),
* the parsed standard input (`Option` of a typed record, `none` standing
  for stdin that fails to parse as JSON),
* the outcome of every remote call, supplied by a behaviour record
  (`.error ()` = the call raises),
* the process working directory `cwd` and, for the stop hook, the
  timestamp-plus-UUID fallback session id, both ambient in the source,
* everything printed to standard output, collected in order.

The external client is not part of this repository; the working-memory
semantics of its two storage operations are modelled from the spec
(§6: "append messages to a named working-memory session (creating it if
absent), replace/put working memory wholesale"). -/

/-- The configuration fields the hook orchestrators branch on or pass to
naming.  Connection fields (server url, timeout, keys) configure only the
unmodelled transport.  (`config.py` lines 11–49.) -/
structure MemoryConfig where
  «namespace» : String := "augment"
  user_id : Option String := none
  auto_capture : Bool := true
  auto_recall : Bool := true
  use_workspace_namespace : Bool := true
  use_persistent_session : Bool := true
  create_workspace_summary : Bool := true
  create_session_summary : Bool := true
  track_tool_usage : Bool := false

/-- A summary view as returned by `list_summary_views`. -/
structure SummaryViewInfo where
  name : String
  id : String

/-- A session's working memory on the remote server: `none` when the
session does not exist yet. -/
def WorkingMemoryStore : Type := String → Option (List MemoryMessage)

/-- Modelled from the spec: the external client's `put_working_memory`
"replace[s]/put[s] working memory wholesale" — the session's message list
becomes exactly the supplied snapshot (creating the session if absent). -/
def put_working_memory (store : WorkingMemoryStore) (session_id : String)
    (messages : List MemoryMessage) : WorkingMemoryStore :=
  fun s => if s = session_id then some messages else store s

/-- Modelled from the spec: the external client's
`append_messages_to_working_memory` "append[s] messages to a named
working-memory session (creating it if absent)". -/
def append_messages_to_working_memory (store : WorkingMemoryStore) (session_id : String)
    (messages : List MemoryMessage) : WorkingMemoryStore :=
  fun s => if s = session_id then some ((store session_id).getD [] ++ messages) else store s

/-! ### The stop hook (`hooks/stop.py`) -/

/-- The stop hook's standard input: `none` models stdin that is not valid
JSON (the stop hook short-circuits on it, `stop.py` lines 116–120); the
`conversation` field is `none` when the key is absent or its dict is falsy
(empty), the condition of line 124. -/
structure StopInput where
  workspace_roots : List String := []
  conversation_id : Option String := none
  conversation : Option Conversation := none

/-- Outcomes of the remote calls the stop hook can reach, in program
order. -/
structure StopClientBehavior where
  putResult : Except Unit Unit := .ok ()
  wsListResult : Except Unit (List SummaryViewInfo) := .ok []
  wsCreateResult : Except Unit SummaryViewInfo := .error ()
  wsRunResult : Except Unit String := .error ()
  sessListResult : Except Unit (List SummaryViewInfo) := .ok []
  sessCreateResult : Except Unit SummaryViewInfo := .error ()
  sessRunResult : Except Unit String := .error ()

/-- Function `ensure_summary_view_exists` of `stop.py` (lines 27–55): look the view
up in `list_summary_views`, create it if absent; its own `try/except`
catches every failure and yields `None`. -/
def stopEnsureSummaryViewExists (listResult : Except Unit (List SummaryViewInfo))
    (createResult : Except Unit SummaryViewInfo) (view_name : String) : Option String :=
  match listResult with
  | .error _ => none
  | .ok views =>
    match views.find? (fun v => v.name == view_name) with
    | some v => some v.id
    | none =>
      match createResult with
      | .ok created => some created.id
      | .error _ => none

/-- What a run of the stop hook leaves behind: everything printed to
standard output, and the remote working-memory store. -/
structure StopHookResult where
  stdout : List String
  store : WorkingMemoryStore

/-- Function `run_hook` of `hooks/stop.py` (lines 107–212).  `fallback_session_id`
stands for the timestamp-and-UUID session id of lines 143–146.  Every
remote failure is caught where the source catches it: `ensure` internally,
`run_summary_view` by the inner `try` of lines 192–206, and everything
else (in particular `put_working_memory`) by the outer `try` of lines
155–212, which prints the `{}` sentinel. -/
def stopRunHook (config : MemoryConfig) (input : Option StopInput)
    (b : StopClientBehavior) (cwd fallback_session_id : String)
    (store : WorkingMemoryStore) : StopHookResult :=
  if ¬ config.auto_capture then ⟨["{}"], store⟩
  else
    match input with
    | none => ⟨["{}"], store⟩
    | some inp =>
      match inp.conversation with
      | none => ⟨["{}"], store⟩
      | some conversation =>
        let workspace_root := get_workspace_root inp.workspace_roots cwd
        let _ns :=
          if config.use_workspace_namespace ∧ workspace_root ≠ "" then
            get_workspace_namespace config.«namespace» workspace_root
          else config.«namespace»
        let session_id :=
          if config.use_persistent_session ∧ workspace_root ≠ "" then
            get_persistent_session_id cwd workspace_root inp.conversation_id
          else fallback_session_id
        let messages := extract_messages_from_conversation conversation
        if messages = [] then ⟨["{}"], store⟩
        else
          match b.putResult with
          | .error _ => ⟨["{}"], store⟩
          | .ok _ =>
            let store := put_working_memory store session_id messages
            let _wsTask : Option (Except Unit String) :=
              if config.create_workspace_summary ∧ workspace_root ≠ "" then
                (stopEnsureSummaryViewExists b.wsListResult b.wsCreateResult
                    (get_workspace_summary_view_name workspace_root)).map
                  (fun _ => b.wsRunResult)
              else none
            let _sessTask : Option (Except Unit String) :=
              if config.create_session_summary ∧ workspace_root ≠ "" then
                (stopEnsureSummaryViewExists b.sessListResult b.sessCreateResult
                    (get_session_summary_view_name workspace_root session_id)).map
                  (fun _ => b.sessRunResult)
              else none
            ⟨["{}"], store⟩

/-! ### The post-tool-use hook (`hooks/post_tool_use.py`) -/

/-- The post-tool-use hook's standard input (`none` = invalid JSON). -/
structure PostToolUseInput extends ToolUsage where
  workspace_roots : List String := []
  conversation_id : Option String := none

/-- Outcome of the one remote call the post-tool-use hook makes. -/
structure PostToolUseClientBehavior where
  appendResult : Except Unit Unit := .ok ()

/-- Function `run_hook` of `hooks/post_tool_use.py` (lines 67–136): the single
`append_messages_to_working_memory` call sits in a `try` whose `except`
prints the sentinel; every path prints exactly `{}`. -/
def postToolUseRunHook (config : MemoryConfig) (input : Option PostToolUseInput)
    (b : PostToolUseClientBehavior) (cwd fallback_session_id : String)
    (store : WorkingMemoryStore) : StopHookResult :=
  if ¬ config.track_tool_usage then ⟨["{}"], store⟩
  else
    match input with
    | none => ⟨["{}"], store⟩
    | some inp =>
      let tool_memory := format_tool_usage inp.toToolUsage
      if ¬ pyTruthy tool_memory then ⟨["{}"], store⟩
      else
        let workspace_root := get_workspace_root inp.workspace_roots cwd
        let session_id :=
          if config.use_persistent_session ∧ workspace_root ≠ "" then
            get_persistent_session_id cwd workspace_root inp.conversation_id
          else fallback_session_id
        match b.appendResult with
        | .error _ => ⟨["{}"], store⟩
        | .ok _ =>
          ⟨["{}"], append_messages_to_working_memory store session_id
            [⟨"system", tool_memory.getD ""⟩]⟩

/-! ### The session-start hook (`hooks/session_start.py`) -/

/-- The session-start hook's standard input (`none` = invalid JSON, which
this hook replaces with an empty object, lines 131–135). -/
structure SessionStartInput where
  workspace_roots : List String := []
  conversation_id : Option String := none

/-- A summary-view partition result, with its optional summary text. -/
structure PartitionResult where
  summary : Option String

/-- Outcomes of the remote calls the session-start hook can reach. -/
structure SessionStartBehavior where
  wsGetResult : Except Unit (Option SummaryViewInfo) := .error ()
  wsCreateResult : Except Unit Unit := .error ()
  wsPartitionResult : Except Unit (Option PartitionResult) := .error ()
  sessGetResult : Except Unit (Option SummaryViewInfo) := .error ()
  sessCreateResult : Except Unit Unit := .error ()
  sessPartitionResult : Except Unit (Option PartitionResult) := .error ()
  searchResult : Except Unit (List (Option String)) := .error ()

/-- Function `ensure_summary_view_exists` of `session_start.py` (lines 22–43):
returns nothing and swallows every failure; it contributes only diagnostic
output. -/
def ssEnsureSummaryViewExists (getResult : Except Unit (Option SummaryViewInfo))
    (createResult : Except Unit Unit) : Unit :=
  match getResult with
  | .error _ => ()
  | .ok (some _) => ()
  | .ok none => match createResult with | _ => ()

/-- Function `get_summary_context` (`session_start.py` lines 46–69): the partition's
summary when the call succeeds and both the result and its summary are
truthy, else `None`. -/
def getSummaryContext (partitionResult : Except Unit (Option PartitionResult)) : Option String :=
  match partitionResult with
  | .error _ => none
  | .ok none => none
  | .ok (some result) =>
    match result.summary with
    | some s => if s ≠ "" then some s else none
    | none => none

/-- Function `search_relevant_memories` (`session_start.py` lines 72–97): the truthy
memory texts, or `[]` when the search raises. -/
def searchRelevantMemories (searchResult : Except Unit (List (Option String))) : List String :=
  match searchResult with
  | .error _ => []
  | .ok texts =>
    texts.filterMap (fun t =>
      match t with
      | some s => if s ≠ "" then some s else none
      | none => none)

/-- Function `build_context` (`session_start.py` lines 100–119): the labelled
sections for the truthy pieces, joined by blank lines, `""` when nothing is
available. -/
def build_context (workspace_summary session_summary : Option String)
    (memories : List String) : String :=
  let parts : List String :=
    (if pyTruthy workspace_summary then
       ["## Workspace Context\n" ++ workspace_summary.getD ""]
     else []) ++
    (if pyTruthy session_summary then
       ["## Session Context\n" ++ session_summary.getD ""]
     else []) ++
    (if memories ≠ [] then
       "## Relevant Memories" ::
         (memories.enum.map (fun p => toString (p.1 + 1) ++ ". " ++ p.2))
     else [])
  if parts ≠ [] then pyJoin "\n\n" parts else ""

/-- Function `run_hook` of `hooks/session_start.py` (lines 122–206): each remote
call is wrapped by its callee's own `try/except`, so a failed call only
loses its contribution; the hook prints the built context, or the `{}`
sentinel when the context is empty. -/
def sessionStartRunHook (config : MemoryConfig) (input : Option SessionStartInput)
    (b : SessionStartBehavior) (cwd : String) : List String :=
  if ¬ config.auto_recall then ["{}"]
  else
    let inp := input.getD {}
    let workspace_root := get_workspace_root inp.workspace_roots cwd
    let ns :=
      if config.use_workspace_namespace ∧ workspace_root ≠ "" then
        get_workspace_namespace config.«namespace» workspace_root
      else config.«namespace»
    let session_id : Option String :=
      if config.use_persistent_session ∧ workspace_root ≠ "" then
        some (get_persistent_session_id cwd workspace_root inp.conversation_id)
      else none
    let workspace_summary :=
      if config.create_workspace_summary ∧ workspace_root ≠ "" ∧ ns ≠ "" then
        let _ := ssEnsureSummaryViewExists b.wsGetResult b.wsCreateResult
        getSummaryContext b.wsPartitionResult
      else none
    let session_summary :=
      if config.create_session_summary ∧ workspace_root ≠ "" ∧ pyTruthy session_id ∧ ns ≠ "" then
        let _ := ssEnsureSummaryViewExists b.sessGetResult b.sessCreateResult
        getSummaryContext b.sessPartitionResult
      else none
    let memories := searchRelevantMemories b.searchResult
    let context := build_context workspace_summary session_summary memories
    if context ≠ "" then [context] else ["{}"]

/-- Concrete stop-hook input: one conversation turn for workspace
`/test/project`, conversation `123`. -/
def c1Input : StopInput :=
  { workspace_roots := ["/test/project"], conversation_id := some "123",
    conversation := some { userPrompt := some "Hello", agentTextResponse := some "Hi there!" } }

/-- Concrete prior remote state: session `augment:project:123` already holds
one message. -/
def c1Store : WorkingMemoryStore :=
  fun s => if s = "augment:project:123" then some [⟨"user", "earlier message"⟩] else none

/-- Concrete session-start behaviour: the workspace summary partition
succeeds with summary `"A"`, every other remote call raises. -/
def c4Behavior : SessionStartBehavior :=
  { wsPartitionResult := .ok (some ⟨some "A"⟩) }

/-! ## Theorems

One theorem per claim of the specification review, preceded by shared
helper lemmas. -/

/-- A string of positive length is not the empty string. -/
theorem ne_empty_of_length_gt {s : String} {n : Nat} (h : n < s.length) : s ≠ "" := by
  rintro rfl
  simp at h

/-- C2: `extract_messages_from_conversation` returns at most two messages;
on `{"userPrompt": "How do I use Redis?", "agentTextResponse": "Redis is..."}`
it returns exactly the user then assistant messages with verbatim contents;
on `{}` it returns no message; and with both a truthy text response and a
non-empty list-valued code response the single assistant message is the text
followed by one `"[changeType: path]"` token per list entry, blank-line
separated. -/
theorem claim_C2_extract_messages :
    (∀ conversation : Conversation,
      (extract_messages_from_conversation conversation).length ≤ 2)
    ∧ extract_messages_from_conversation
        { userPrompt := some "How do I use Redis?",
          agentTextResponse := some "Redis is...", agentCodeResponse := none }
      = [⟨"user", "How do I use Redis?"⟩, ⟨"assistant", "Redis is..."⟩]
    ∧ extract_messages_from_conversation {} = []
    ∧ ∀ (text : String) (changes : List CodeChange),
        text ≠ "" → changes ≠ [] →
        extract_messages_from_conversation
          { userPrompt := none, agentTextResponse := some text,
            agentCodeResponse := some (.list changes) }
        = [⟨"assistant", pyJoin "\n\n" (text :: changes.map formatCodeChange)⟩] := by
  refine ⟨?_, by decide, by decide, ?_⟩
  · intro conversation
    simp only [extract_messages_from_conversation]
    split <;> split <;> (try simp) <;> (try (split <;> simp))
  · intro text changes htext hchanges
    simp [extract_messages_from_conversation, pyTruthy, codeTruthy, htext, hchanges]

/-- Witness for C2 at concrete inputs. -/
theorem claim_C2_witness :
    extract_messages_from_conversation
      { userPrompt := none, agentTextResponse := some "Here are the changes:",
        agentCodeResponse := some (.list [{ path := some "file.py", changeType := some "edit" }]) }
    = [⟨"assistant", pyJoin "\n\n" ("Here are the changes:" :: [formatCodeChange { path := some "file.py", changeType := some "edit" }])⟩] := by
  have h := claim_C2_extract_messages.2.2.2 "Here are the changes:"
    [{ path := some "file.py", changeType := some "edit" }] (by decide) (by decide)
  simpa using h

/-- C10: an empty `userPrompt` behaves like an absent one (no user
message), and an empty `agentTextResponse` together with an empty-string or
empty-list `agentCodeResponse` behaves like absent response fields (no
assistant message). -/
theorem claim_C10_empty_fields_as_absent :
    ∀ (p t : Option String) (c : Option AgentCodeResponse),
      extract_messages_from_conversation
          { userPrompt := some "", agentTextResponse := t, agentCodeResponse := c }
        = extract_messages_from_conversation
          { userPrompt := none, agentTextResponse := t, agentCodeResponse := c }
      ∧ (∀ m ∈ extract_messages_from_conversation
            { userPrompt := some "", agentTextResponse := t, agentCodeResponse := c },
          m.role ≠ "user")
      ∧ extract_messages_from_conversation
          { userPrompt := p, agentTextResponse := some "",
            agentCodeResponse := some (.str "") }
        = extract_messages_from_conversation
          { userPrompt := p, agentTextResponse := none, agentCodeResponse := none }
      ∧ extract_messages_from_conversation
          { userPrompt := p, agentTextResponse := some "",
            agentCodeResponse := some (.list []) }
        = extract_messages_from_conversation
          { userPrompt := p, agentTextResponse := none, agentCodeResponse := none }
      ∧ (∀ m ∈ extract_messages_from_conversation
            { userPrompt := p, agentTextResponse := some "",
              agentCodeResponse := some (.list []) },
          m.role ≠ "assistant") := by
  intro p t c
  refine ⟨rfl, ?_, rfl, rfl, ?_⟩
  · intro m hm
    simp only [extract_messages_from_conversation, pyTruthy] at hm
    simp at hm
    split at hm <;> simp at hm <;> simp [hm]
  · intro m hm
    simp only [extract_messages_from_conversation, pyTruthy, codeTruthy] at hm
    simp at hm
    split at hm <;> simp at hm <;> simp [hm]

/-- Witness for C10 at concrete inputs. -/
theorem claim_C10_witness :
    extract_messages_from_conversation
        { userPrompt := some "", agentTextResponse := some "hi", agentCodeResponse := none }
      = extract_messages_from_conversation
        { userPrompt := none, agentTextResponse := some "hi", agentCodeResponse := none }
    ∧ (⟨"assistant", "hi"⟩ : MemoryMessage).role ≠ "user"
    ∧ (⟨"user", "q"⟩ : MemoryMessage).role ≠ "assistant" := by
  refine ⟨(claim_C10_empty_fields_as_absent none (some "hi") none).1, ?_, ?_⟩
  · exact (claim_C10_empty_fields_as_absent none (some "hi") none).2.1
      ⟨"assistant", "hi"⟩ (by decide)
  · exact (claim_C10_empty_fields_as_absent (some "q") (some "hi") none).2.2.2.2
      ⟨"user", "q"⟩ (by decide)

/-- C9: `format_tool_usage` skips every denylisted tool name; for
`launch-process` with command `pytest -v` the output names both; a command
is truncated to its first 200 characters and an error string to its first
100. -/
theorem claim_C9_format_tool_usage :
    (∀ inp : ToolUsage,
      skipTools.contains (inp.tool_name.getD "unknown") = true →
      format_tool_usage inp = none)
    ∧ format_tool_usage
        { tool_name := some "launch-process", tool_input := { command := some "pytest -v" } }
      = some "Used tool: launch-process | Command: pytest -v"
    ∧ ((∃ l r : List Char,
          l ++ "launch-process".data ++ r
            = ("Used tool: launch-process | Command: pytest -v").data)
       ∧ (∃ l r : List Char,
          l ++ ("pytest -v").data ++ r
            = ("Used tool: launch-process | Command: pytest -v").data))
    ∧ (∀ command : String, 200 < command.length →
        format_tool_usage
          { tool_name := some "launch-process", tool_input := { command := some command } }
        = some ("Used tool: launch-process | Command: " ++ strTake command 200))
    ∧ (∀ error : String, 100 < error.length →
        format_tool_usage { tool_name := none, tool_error := some error }
        = some ("Used tool: unknown | Error: " ++ strTake error 100)) := by
  refine ⟨?_, by decide, ⟨?_, ?_⟩, ?_, ?_⟩
  · intro inp h
    have hmem : inp.tool_name.getD "unknown" ∈ skipTools := by simpa using h
    simp [format_tool_usage, hmem]
  · exact ⟨"Used tool: ".data, " | Command: pytest -v".data, by decide⟩
  · exact ⟨"Used tool: launch-process | Command: ".data, [], by decide⟩
  · intro command h
    have hne : command ≠ "" := ne_empty_of_length_gt h
    simp [format_tool_usage, skipTools, hne, pyJoin]
    apply String.ext
    simp
  · intro error h
    have hne : error ≠ "" := ne_empty_of_length_gt h
    simp [format_tool_usage, skipTools, hne, pyJoin]
    apply String.ext
    simp

set_option maxRecDepth 8192 in
/-- Witness for C9 at concrete inputs. -/
theorem claim_C9_witness :
    format_tool_usage { tool_name := some "view" } = none
    ∧ format_tool_usage
        { tool_name := some "launch-process",
          tool_input := { command := some (String.mk (List.replicate 201 'x')) } }
      = some ("Used tool: launch-process | Command: "
          ++ strTake (String.mk (List.replicate 201 'x')) 200)
    ∧ format_tool_usage
        { tool_name := none, tool_error := some (String.mk (List.replicate 101 'e')) }
      = some ("Used tool: unknown | Error: "
          ++ strTake (String.mk (List.replicate 101 'e')) 100) := by
  refine ⟨?_, ?_, ?_⟩
  · exact claim_C9_format_tool_usage.1 { tool_name := some "view" } (by decide)
  · exact claim_C9_format_tool_usage.2.2.2.1 _ (by decide)
  · exact claim_C9_format_tool_usage.2.2.2.2 _ (by decide)

/-- Every character `hexDigit` can produce lies in `[0-9a-f]` (out-of-range
indices give the default `'0'`, also in the class). -/
theorem isLowerHexDigit_hexDigit (n : Nat) : isLowerHexDigit (hexDigit n) = true := by
  rcases Nat.lt_or_ge n 16 with h | h
  · interval_cases n <;> decide
  · have hlen : hexDigits.length ≤ n := by
      have e : hexDigits.length = 16 := rfl
      omega
    simp [hexDigit, List.getD, List.getElem?_eq_none hlen]
    decide

/-- Python `bytes.hex()` output contains only `[0-9a-f]` characters. -/
theorem bytesToHexChars_all_hex (bs : List Nat) :
    (bytesToHexChars bs).all isLowerHexDigit = true := by
  rw [List.all_eq_true]
  intro c hc
  rw [bytesToHexChars, List.mem_flatMap] at hc
  obtain ⟨b, _, hc⟩ := hc
  simp only [List.mem_cons, List.not_mem_nil, or_false] at hc
  rcases hc with rfl | rfl <;> exact isLowerHexDigit_hexDigit _

/-- Python `bytes.hex()` output has two characters per byte. -/
theorem bytesToHexChars_length (bs : List Nat) :
    (bytesToHexChars bs).length = 2 * bs.length := by
  induction bs with
  | nil => rfl
  | cons b bs ih => simp [bytesToHexChars] at ih ⊢; omega

/-- A SHA-256 digest has 32 bytes. -/
theorem sha256Digest_length (msg : List Nat) : (sha256Digest msg).length = 32 := by
  simp [sha256Digest, stateBytes, wordBE]

/-- A workspace id has exactly 8 characters. -/
theorem get_workspace_id_length (cwd workspace_root : String) :
    (get_workspace_id cwd workspace_root).length = 8 := by
  simp [get_workspace_id, bytesToHex, bytesToHexChars_length, sha256Digest_length]

/-- A workspace id consists only of `[0-9a-f]` characters. -/
theorem get_workspace_id_hex (cwd workspace_root : String) :
    (get_workspace_id cwd workspace_root).data.all isLowerHexDigit = true := by
  simp only [get_workspace_id, bytesToHex]
  exact bytesToHexChars_all_hex _

/-- C5: `get_workspace_id` is the first 4 bytes of the SHA-256 of the UTF-8
bytes of the normalized absolute path, as 8 lowercase hex characters; it is
deterministic and always matches `^[0-9a-f]\x7b8\x7d$`. -/
theorem claim_C5_workspace_id :
    ∀ cwd p : String,
      get_workspace_id cwd p
        = bytesToHex ((sha256Digest (utf8Encode (pyNormpath (pyAbspath cwd p)))).take 4)
      ∧ get_workspace_id cwd p = get_workspace_id cwd p
      ∧ (get_workspace_id cwd p).length = 8
      ∧ (get_workspace_id cwd p).data.all isLowerHexDigit = true := by
  intro cwd p
  exact ⟨rfl, rfl, get_workspace_id_length cwd p, get_workspace_id_hex cwd p⟩

/-- C6: with a truthy conversation id the persistent session id is
`augment:{workspace_name}:{conversation_id}`; otherwise it is
`augment:{workspace_name}:{workspace_id}` with the 8-hex-character
workspace id as suffix. -/
theorem claim_C6_persistent_session_id :
    ∀ (cwd workspace_root : String) (conversation_id : Option String),
      (pyTruthy conversation_id = true →
        get_persistent_session_id cwd workspace_root conversation_id
          = "augment:" ++ get_workspace_name workspace_root ++ ":" ++ conversation_id.getD "")
      ∧ (pyTruthy conversation_id = false →
        get_persistent_session_id cwd workspace_root conversation_id
          = "augment:" ++ get_workspace_name workspace_root ++ ":"
              ++ get_workspace_id cwd workspace_root
        ∧ (get_workspace_id cwd workspace_root).length = 8
        ∧ (get_workspace_id cwd workspace_root).data.all isLowerHexDigit = true) := by
  intro cwd workspace_root conversation_id
  constructor
  · intro h
    simp [get_persistent_session_id, h]
  · intro h
    exact ⟨by simp [get_persistent_session_id, h],
      get_workspace_id_length cwd workspace_root, get_workspace_id_hex cwd workspace_root⟩

/-- Witness for C6 at concrete inputs, both branches. -/
theorem claim_C6_witness :
    pyTruthy (some "conv-123") = true
    ∧ get_persistent_session_id "/cwd" "/path/to/project" (some "conv-123")
      = "augment:" ++ get_workspace_name "/path/to/project" ++ ":" ++ (some "conv-123").getD ""
    ∧ pyTruthy (none : Option String) = false
    ∧ get_persistent_session_id "/cwd" "/path/to/project" none
      = "augment:" ++ get_workspace_name "/path/to/project" ++ ":"
          ++ get_workspace_id "/cwd" "/path/to/project" := by
  refine ⟨by decide, ?_, by decide, ?_⟩
  · exact (claim_C6_persistent_session_id "/cwd" "/path/to/project" (some "conv-123")).1 (by decide)
  · exact ((claim_C6_persistent_session_id "/cwd" "/path/to/project" none).2 (by decide)).1

/-- C3 fails as stated: Python `isalnum` is Unicode-aware, so `sanitize`
passes the non-ASCII letter `é` through, and the output leaves
`[A-Za-z0-9_-]`. -/
theorem claim_C3_counterexample :
    sanitize "é" = "é" ∧ ¬ (sanitize "é").data.all asciiNameClass = true := by
  decide

/-- C3 amended: the sanitization replaces, per character and preserving
length and order, every character that is not Python-alphanumeric, `-` or
`_` with `_`; when the input is ASCII its output contains only
`[A-Za-z0-9_-]` (a non-ASCII alphanumeric such as `é` passes through). -/
theorem claim_C3_sanitize_amended :
    ∀ s : String,
      (sanitize s).length = s.length
      ∧ (sanitize s).data
          = s.data.map (fun c => if pyIsAlnum c || c = '-' || c = '_' then c else '_')
      ∧ (s.data.all (fun c => c.toNat < 128) = true →
          (sanitize s).data.all asciiNameClass = true) := by
  intro s
  refine ⟨by simp [sanitize], rfl, ?_⟩
  intro h
  rw [List.all_eq_true] at h ⊢
  intro c hc
  rw [sanitize] at hc
  simp only [List.mem_map] at hc
  obtain ⟨c0, hc0, rfl⟩ := hc
  have hascii : c0.toNat < 128 := by simpa using h c0 hc0
  rw [sanitizeChar]
  split
  · rename_i hcond
    rcases Bool.or_eq_true .. |>.mp hcond with hcond | hcond
    · rcases Bool.or_eq_true .. |>.mp hcond with hcond | hcond
      · rw [pyIsAlnum, if_pos hascii] at hcond
        simp [asciiNameClass, hcond]
      · simp only [decide_eq_true_eq] at hcond
        simp [asciiNameClass, hcond]
    · simp only [decide_eq_true_eq] at hcond
      simp [asciiNameClass, hcond]
  · decide

/-- Witness for C3 at a concrete ASCII input. -/
theorem claim_C3_witness :
    ("my project!".data.all (fun c => c.toNat < 128) = true)
    ∧ (sanitize "my project!").data.all asciiNameClass = true := by
  refine ⟨by decide, ?_⟩
  exact (claim_C3_sanitize_amended "my project!").2.2 (by decide)

/-- C8 fails as stated: the filter strips only for the membership test and
keeps the unstripped element, so a whitespace-decorated variant of an
allow-listed name enters the list. -/
theorem claim_C8_counterexample :
    loadSummaryGroupBy (some "user_id, namespace") = ["user_id", " namespace"]
    ∧ " namespace" ∉ validSummaryGroupByFields := by
  decide

/-- C8 amended: every element of the parsed group-by list strips to an
allow-listed field name, and an element without surrounding whitespace is
itself allow-listed; whitespace-decorated variants are admitted verbatim. -/
theorem claim_C8_group_by_amended :
    ∀ env : Option String,
      (∀ f ∈ loadSummaryGroupBy env, pyStrip f ∈ validSummaryGroupByFields)
      ∧ (∀ f ∈ loadSummaryGroupBy env, pyStrip f = f → f ∈ validSummaryGroupByFields) := by
  intro env
  have key : ∀ f ∈ loadSummaryGroupBy env, pyStrip f ∈ validSummaryGroupByFields := by
    intro f hf
    rw [loadSummaryGroupBy, parseSummaryGroupBy, List.mem_filter] at hf
    simpa using hf.2
  exact ⟨key, fun f hf he => he ▸ key f hf⟩

/-- Witness for C8 at the concrete counterexample input. -/
theorem claim_C8_witness :
    pyStrip " namespace" ∈ validSummaryGroupByFields
    ∧ pyStrip "user_id" = "user_id"
    ∧ ("user_id" : String) ∈ validSummaryGroupByFields := by
  refine ⟨?_, by decide, ?_⟩
  · exact (claim_C8_group_by_amended (some "user_id, namespace")).1 " namespace" (by decide)
  · exact (claim_C8_group_by_amended (some "user_id, namespace")).2 "user_id" (by decide) (by decide)

set_option maxRecDepth 100000 in
/-- C7 fails as stated: the view name keeps only the first 8 hex characters
(32 bits) of the session hash, and the distinct session ids `s2330` and
`s130636` collide there (both hash to prefix `b07b8ed5`), giving the same
view name on the same workspace. -/
theorem claim_C7_counterexample :
    get_session_summary_view_name "/p" "s2330" = get_session_summary_view_name "/p" "s130636"
    ∧ ("s2330" : String) ≠ "s130636" := by
  exact ⟨by decide, by decide⟩

/-- C7 amended: `get_session_summary_view_name` is deterministic, and two
session ids on the same workspace get different names whenever the first 8
hex characters of their SHA-256 digests differ (truncated-hash collisions,
as exhibited above, are the only way names can coincide). -/
theorem claim_C7_session_view_name_amended :
    ∀ (workspace_root session_id1 session_id2 : String),
      get_session_summary_view_name workspace_root session_id1
        = get_session_summary_view_name workspace_root session_id1
      ∧ (strTake (sha256HexOfString session_id1) 8 ≠ strTake (sha256HexOfString session_id2) 8 →
          get_session_summary_view_name workspace_root session_id1
            ≠ get_session_summary_view_name workspace_root session_id2) := by
  intro workspace_root s1 s2
  refine ⟨rfl, fun hne he => hne ?_⟩
  apply String.ext
  have hd := congrArg String.data he
  exact List.append_cancel_left hd

set_option maxRecDepth 100000 in
/-- Witness for C7 at concrete session ids with distinct hash prefixes. -/
theorem claim_C7_witness :
    strTake (sha256HexOfString "a") 8 ≠ strTake (sha256HexOfString "b") 8
    ∧ get_session_summary_view_name "/p" "a" ≠ get_session_summary_view_name "/p" "b" := by
  refine ⟨by decide, ?_⟩
  exact (claim_C7_session_view_name_amended "/p" "a" "b").2 (by decide)

set_option maxRecDepth 100000 in
/-- C1's failing input, evaluated: the stop hook stores the turn through the
client's put (replace-wholesale) operation, so a session that already held a
message ends up with only the two newly extracted messages — the prior
message is dropped, not appended to.  (The source's own comment at
`stop.py` line 179 and its tests, which assert
`append_messages_to_working_memory` is called, expect append semantics.) -/
theorem claim_C1_stop_put_replaces :
    (stopRunHook {} (some c1Input) {} "/cwd" "fallback" c1Store).store "augment:project:123"
      = some [⟨"user", "Hello"⟩, ⟨"assistant", "Hi there!"⟩]
    ∧ (stopRunHook {} (some c1Input) {} "/cwd" "fallback" c1Store).store "augment:project:123"
      ≠ some [⟨"user", "earlier message"⟩, ⟨"user", "Hello"⟩, ⟨"assistant", "Hi there!"⟩]
    ∧ (stopRunHook {} (some c1Input) {} "/cwd" "fallback" c1Store).stdout = ["{}"] := by
  exact ⟨by decide, by decide, by decide⟩

set_option maxRecDepth 100000 in
/-- C4 fails as stated: in the session-start hook a failing wrapped call
only loses its own contribution, so with a succeeding workspace-summary
call and a raising memory search the hook prints the summary context, not
the `{}` sentinel. -/
theorem claim_C4_counterexample :
    c4Behavior.searchResult = Except.error ()
    ∧ sessionStartRunHook {} (some { workspace_roots := ["/test/project"] }) c4Behavior "/cwd"
        = ["## Workspace Context\nA"]
    ∧ sessionStartRunHook {} (some { workspace_roots := ["/test/project"] }) c4Behavior "/cwd"
        ≠ ["{}"] := by
  exact ⟨rfl, by decide, by decide⟩

/-- C4 amended: for every configuration, input and client behaviour, each
hook terminates with exactly one value on standard output; the stop and
post-tool-use hooks always print `{}`; the session-start hook prints `{}`
when every content-producing remote call fails (and in general one value,
a failing call only losing its contribution). -/
theorem claim_C4_hook_output_amended :
    ∀ (config : MemoryConfig) (ssInput : Option SessionStartInput)
      (stInput : Option StopInput) (ptInput : Option PostToolUseInput)
      (sb : SessionStartBehavior) (stb : StopClientBehavior)
      (pb : PostToolUseClientBehavior) (cwd fallback_session_id : String)
      (store : WorkingMemoryStore),
      (stopRunHook config stInput stb cwd fallback_session_id store).stdout = ["{}"]
      ∧ (postToolUseRunHook config ptInput pb cwd fallback_session_id store).stdout = ["{}"]
      ∧ (sessionStartRunHook config ssInput sb cwd).length = 1
      ∧ (sb.wsPartitionResult = .error () → sb.sessPartitionResult = .error () →
          sb.searchResult = .error () →
          sessionStartRunHook config ssInput sb cwd = ["{}"]) := by
  intro config ssInput stInput ptInput sb stb pb cwd fallback_session_id store
  refine ⟨?_, ?_, ?_, ?_⟩
  · simp only [stopRunHook]
    repeat first | rfl | split
  · simp only [postToolUseRunHook]
    repeat first | rfl | split
  · simp only [sessionStartRunHook]
    repeat first | rfl | split
  · intro h1 h2 h3
    simp only [sessionStartRunHook, h1, h2, h3]
    simp [getSummaryContext, searchRelevantMemories, build_context, pyTruthy, pyJoin]

/-- Witness for C4 at a concrete configuration and the all-failing
behaviour. -/
theorem claim_C4_witness :
    (stopRunHook {} none {} "/cwd" "fb" (fun _ => none)).stdout = ["{}"]
    ∧ (postToolUseRunHook {} none {} "/cwd" "fb" (fun _ => none)).stdout = ["{}"]
    ∧ (sessionStartRunHook {} none {} "/cwd").length = 1
    ∧ sessionStartRunHook {} none {} "/cwd" = ["{}"] := by
  obtain ⟨h1, h2, h3, h4⟩ :=
    claim_C4_hook_output_amended {} none none none {} {} {} "/cwd" "fb" (fun _ => none)
  exact ⟨h1, h2, h3, h4 rfl rfl rfl⟩

end AugmentMemory
